import Mathlib

/-!
Verification development for the Harmonisation repository (FIDUCEO FCDR
harmonisation).  The embedding covers the Monte Carlo driver
`src/main/ODR_MC/branches/v11/MCerrst.py`, the plotting entry point
`plotMCres.plotSDfit`, and `tools/AVHRR_to_updated_spec.return_valid_averages_mask`.

Real-valued data is modelled over `ℚ`.  Harmonisation matrices are total
functions `Nat → Nat → ℚ` indexed (record, column); the column layout follows
`readHD.rHDpair` for a reference-sensor pair: 0 = Lref, 1 = Cs (space counts),
2 = Cict (internal-target counts), 3 = CE (Earth counts), 4 = Lict
(internal-target radiance), 5 = To (orbit temperature), 6 = K (adjustment).

The external ODR solver is out of scope for the specification and is treated as
an opaque function parameter; modules of this repository that are not present
under `src/` (`errStruct.py`, `harFun.py`, v11 `readHD.resetHs`) are modelled
from the specification, as flagged in the individual doc comments.
-/

namespace Harmonisation

/-- Modelled from the spec: the per-trial supply of independent standard-normal
draws consumed by the correlated error generator (`errStruct.py` is absent from
`src/`).  Spec section 4.2 requires one draw per record per independent-random
variable (`zRec`), one draw per scanline group for each scanline-correlated
variable (`zS` for space counts, `zI` for internal-target counts, keyed by the
scanline index), and one draw per trial for each fully-systematic variable
(`zLict`, `zTo`). -/
structure Draws where
  zRec : Nat → Nat → ℚ
  zS : Int → ℚ
  zI : Int → ℚ
  zLict : ℚ
  zTo : ℚ

/-- Modelled from the spec: `errStruct.genErr`, absent from `src/`.  Spec
sections 4.1 and 4.2: the error matrix has one row per matchup record and one
column per harmonisation variable plus the response, in the `readHD` column
layout.  Space-count (column 1) and internal-target-count (column 2) random
uncertainty is scanline-level: one standard-normal draw per scanline group,
broadcast to every record of the group and scaled by that group's declared
scanline uncertainty (`uS`, `uI`).  Internal-target radiance (column 4) and
orbit temperature (column 5) receive a record-level independent draw scaled by
the record's random uncertainty plus a per-trial systematic draw scaled by the
systematic scalar (`sL`, `sT`).  The remaining columns (Lref 0, CE 3, K 6) are
record-level independent, scaled by the record's declared random uncertainty.
A declared uncertainty of 0 therefore contributes exactly zero error.  The
generator is called as `mce.genErr(Hr, sLict, sTo, rCSar, rCICTar, slt, corLen,
mcnt)` at MCerrst.py line 118; it receives no fix-mask. -/
def genErr (Hr : Nat → Nat → ℚ) (sL sT : ℚ) (uS uI : Int → ℚ)
    (corIdx : Nat → Int) (d : Draws) : Nat → Nat → ℚ := fun i j =>
  if j = 1 then d.zS (corIdx i) * uS (corIdx i)
  else if j = 2 then d.zI (corIdx i) * uI (corIdx i)
  else if j = 4 then d.zRec i 4 * Hr i 4 + d.zLict * sL
  else if j = 5 then d.zRec i 5 * Hr i 5 + d.zTo * sT
  else d.zRec i j * Hr i j

/-- Modelled from the spec: `readHD.resetHs` of branch v11 is absent from
`src/` (only the v3 `readHD.py`, which lacks it, is present).  MCerrst.py line
58 calls it to "set systematic uncertainties equivalent to Peter&Sam GN
optimisation"; spec section 4.1 states that a declared systematic uncertainty
advertised as 0 but physically required to be nonzero is corrected to a minimal
nonzero placeholder before use.  The systematic scalars actually consumed are
`Hs[0,4]` (Lict) and `Hs[0,5]` (To), so the placeholder substitution is applied
to those two columns. -/
def resetHs (Hs : Nat → Nat → ℚ) : Nat → Nat → ℚ := fun i j =>
  if (j = 4 ∨ j = 5) ∧ Hs i j = 0 then 1 / 1000000 else Hs i j

/-- Coefficient fix-mask `ifixb` built at MCerrst.py lines 61-63:
`parfix = ones(p); parfix[-1] = 0` (fix the last coefficient a3). -/
def parfix (p : Nat) : List Int := (List.replicate p 1).set (p - 1) 0

/-- Variable fix-mask `ifixx` built at MCerrst.py lines 67-69:
`varfix = ones(m); varfix[-1] = 0` (fix the last variable, To). -/
def varfix (m : Nat) : List Int := (List.replicate m 1).set (m - 1) 0

/-- Modelled from the spec: `harFun.py` is absent from `src/`.  Spec section
4.4 lists the regression driver inputs: explanatory-variable matrix (record ×
variable), response vector, per-variable random-uncertainty weights, initial
coefficient vector, fix-masks for coefficients and variables, and the
systematic-uncertainty matrix used in the combined weighting. -/
structure FitIn where
  X : Nat → Nat → ℚ
  Y : Nat → ℚ
  Hr : Nat → Nat → ℚ
  beta0 : List ℚ
  fixb : List Int
  fixx : List Int
  Hs : Nat → Nat → ℚ

/-- Modelled from the spec: section 4.4 regression driver outputs — fitted
coefficient vector `beta`, coefficient covariance `cov`, best-estimate fitted
variables `xplus` (variable-major, as in scipy ODR: `xplus[j][i]` is variable
`j` of record `i`), fitted response `y`, and the solver status code `info`. -/
structure FitOut where
  beta : List ℚ
  cov : Nat → Nat → ℚ
  xplus : Nat → Nat → ℚ
  y : Nat → ℚ
  info : ℚ

/-- Configuration of one MCerrst.py run: coefficient count `p`, measured
variable count `m`, trial count `notr`, initial coefficients `beta` (the input
calibration coefficients), the harmonisation data/uncertainty matrices `Hd`,
`Hr`, `Hs` and scanline index `corIdx` read by `readHD.rHDpair`, the per-group
scanline uncertainties `uS`/`uI` (from `csUr[midx]`/`cictUr[midx]`, MCerrst.py
lines 94-97), and the external ODR solver, treated as an opaque pure
function (out of scope per spec sections 1 and 6). -/
structure MCConfig where
  p : Nat
  m : Nat
  notr : Nat
  beta : List ℚ
  Hd : Nat → Nat → ℚ
  Hr : Nat → Nat → ℚ
  Hs : Nat → Nat → ℚ
  corIdx : Nat → Int
  uS : Int → ℚ
  uI : Int → ℚ
  solver : FitIn → FitOut

/-- Systematic uncertainties after the reset of MCerrst.py line 58
(time-dependent branch): `Hs = rhd.resetHs(Hs, rsp)`. -/
def HsR (cfg : MCConfig) : Nat → Nat → ℚ := resetHs cfg.Hs

/-- Input of the best-estimate fit of MCerrst.py line 73:
`podr = har.odrP(Hd, Hr, beta, avhrrNx, fixb, fixx, Hs)`.  The marshalling of
`Hd` into explanatory variables and response is modelled from the spec
(`harFun.py` absent): columns 1-5 of `Hd` are the explanatory variables and the
response is the adjusted reference radiance Lref + K (spec section 4.2: "the
regression response is a derived sum of both"). -/
def bestInput (cfg : MCConfig) : FitIn :=
  { X := fun i j => cfg.Hd i (j + 1)
    Y := fun i => cfg.Hd i 0 + cfg.Hd i 6
    Hr := cfg.Hr
    beta0 := cfg.beta
    fixb := parfix cfg.p
    fixx := varfix cfg.m
    Hs := HsR cfg }

/-- Best-estimate fit output `podr` of MCerrst.py line 73. -/
def podr (cfg : MCConfig) : FitOut := cfg.solver (bestInput cfg)

/-- Systematic error scalar of Lict: `sLict = Hs[0,4]`, MCerrst.py line 91. -/
def sLict (cfg : MCConfig) : ℚ := HsR cfg 0 4

/-- Systematic error scalar of To: `sTo = Hs[0,5]`, MCerrst.py line 92. -/
def sTo (cfg : MCConfig) : ℚ := HsR cfg 0 5

/-- One trial's error matrix `errStr`, MCerrst.py line 118. -/
def trialErr (cfg : MCConfig) (d : Draws) : Nat → Nat → ℚ :=
  genErr cfg.Hr (sLict cfg) (sTo cfg) cfg.uS cfg.uI cfg.corIdx d

/-- Trial explanatory variables, MCerrst.py line 120:
`Xdt = X.T + errStr[:,1:6]` with `X = podr.xplus` (line 90). -/
def mcXdt (cfg : MCConfig) (d : Draws) : Nat → Nat → ℚ := fun i j =>
  (podr cfg).xplus j i + trialErr cfg d i (j + 1)

/-- Trial response, MCerrst.py line 121:
`Ydt = Y + errStr[:,0] + errStr[:,6]` with `Y = podr.y` (line 89). -/
def mcYdt (cfg : MCConfig) (d : Draws) : Nat → ℚ := fun i =>
  (podr cfg).y i + trialErr cfg d i 0 + trialErr cfg d i 6

/-- Arguments of the per-trial fit, MCerrst.py line 127:
`mcodr = har.odr4MC(Xdt, Ydt, Hr, bodr, avhrrNx, fixb, fixx, Hs)` with
`bodr = podr.beta` (line 83). -/
def mcTrialInput (cfg : MCConfig) (d : Draws) : FitIn :=
  { X := mcXdt cfg d
    Y := mcYdt cfg d
    Hr := cfg.Hr
    beta0 := (podr cfg).beta
    fixb := parfix cfg.p
    fixx := varfix cfg.m
    Hs := HsR cfg }

/-- Per-trial fit output `mcodr`, MCerrst.py line 127. -/
def mcTrial (cfg : MCConfig) (d : Draws) : FitOut := cfg.solver (mcTrialInput cfg d)

/-- Trial-result table `mcb`, MCerrst.py lines 107-131: an array of `notr` rows
where row `i` stores the trial's fitted coefficients (`mcb[i,0:p] =
mcodr.beta`) followed by the solver halting code (`mcb[i,p] = mcodr.info`).
`savetxt(fn, mcb, delimiter=",")` (line 137) persists exactly this table. -/
def mcb (cfg : MCConfig) (draws : Nat → Draws) : List (List ℚ) :=
  (List.range cfg.notr).map fun i =>
    (mcTrial cfg (draws i)).beta ++ [(mcTrial cfg (draws i)).info]

/-- Forced nonzero To random uncertainty of the time-independent branch,
MCerrst.py line 46: `Hr[:,5] = 1.` ("change 0 uncertainty of To for ODR to
work"). -/
def setHrTo1 (Hr : Nat → Nat → ℚ) : Nat → Nat → ℚ := fun i j =>
  if j = 5 then 1 else Hr i j

/-- Input of the time-independent best-estimate fit, MCerrst.py line 49:
`podr = har.odrP(Hd, Hr, beta, avhrrNx)` on the `Hr` modified by line 46.
Defaults (no coefficient or variable fixed, zero systematic weighting) are
modelled from spec section 4.4. -/
def bestInputNT (cfg : MCConfig) : FitIn :=
  { X := fun i j => cfg.Hd i (j + 1)
    Y := fun i => cfg.Hd i 0 + cfg.Hd i 6
    Hr := setHrTo1 cfg.Hr
    beta0 := cfg.beta
    fixb := List.replicate cfg.p 1
    fixx := List.replicate cfg.m 1
    Hs := fun _ _ => 0 }

/-- Modelled from the spec: section 4.2 requires the random generator to be
re-seedable for reproducible trials.  A simple linear-congruential value in
[0, 1); its distribution is irrelevant to the determinism property. -/
def prng (n : Nat) : ℚ := (((1103515245 * n + 12345) % 2147483648 : Nat) : ℚ) / 2147483648

/-- Modelled from the spec: the seeded source of draws — trial `t` of a run
seeded with `seed` receives deterministic pseudo-random draws for every record,
scanline group and systematic component. -/
def mkDraws (seed : Nat) : Nat → Draws := fun t =>
  { zRec := fun i j => prng (seed + 1000003 * t + 31 * i + 7 * j + 11)
    zS := fun g => prng (seed + 1000003 * t + 101 + 2 * g.natAbs)
    zI := fun g => prng (seed + 1000003 * t + 211 + 2 * g.natAbs + 1)
    zLict := prng (seed + 1000003 * t + 3)
    zTo := prng (seed + 1000003 * t + 5) }

/-- One full seeded Monte Carlo run: the persisted trial table produced from a
configuration and a random seed. -/
def runMC (cfg : MCConfig) (seed : Nat) : List (List ℚ) := mcb cfg (mkDraws seed)

/-- Stand-in for the external ODR solver, used to build concrete witnesses: it
returns the initial guess as fitted coefficients, the identity marshalling of
the data as best estimates, and status code 1.  It satisfies the spec contract
that the fitted coefficient vector has the length of the initial one. -/
def dummySolver : FitIn → FitOut := fun inp =>
  { beta := inp.beta0
    cov := fun _ _ => 0
    xplus := fun j i => inp.X i j
    y := inp.Y
    info := 1 }

/-- Small concrete configuration used by witnesses. -/
def cfg0 : MCConfig :=
  { p := 4
    m := 5
    notr := 2
    beta := [1, 1/2, 0, 2]
    Hd := fun i j => (i : ℚ) + j
    Hr := fun _ _ => 1
    Hs := fun _ _ => 1
    corIdx := fun i => (i / 2 : Nat)
    uS := fun _ => 1
    uI := fun _ => 1
    solver := dummySolver }

/-- Concrete configuration exhibiting the counterexample to claim C1: the To
variable is fixed by the variable fix-mask, its record-level random uncertainty
is declared 1, and its systematic uncertainty is 1. -/
def cfg1 : MCConfig :=
  { p := 4
    m := 5
    notr := 1
    beta := [0, 0, 0, 0]
    Hd := fun _ _ => 0
    Hr := fun _ j => if j = 5 then 1 else 0
    Hs := fun _ _ => 1
    corIdx := fun _ => 0
    uS := fun _ => 0
    uI := fun _ => 0
    solver := dummySolver }

/-- Draws for the C1 counterexample: the record-level draw for the To column is
1, every other draw is 0. -/
def d1 : Draws :=
  { zRec := fun _ j => if j = 5 then 1 else 0
    zS := fun _ => 0
    zI := fun _ => 0
    zLict := 0
    zTo := 0 }

/-- Python runtime error raised on the executed path: a NameError from reading
a local variable that was never assigned, or a ValueError from the standard
library (here, `random.sample` with a sample size exceeding the population). -/
inductive PyErr
  | nameError (v : String)
  | valueError (m : String)

/-- One call of the plotting primitive `vis.resLfit` (plotMCres.py): recorded
by its axis labels and title; the numeric payloads belong to the out-of-scope
visualization layer. -/
structure PlotCall where
  xlab : String
  ylab : String
  title : String

/-- Embedding of `plotMCres.plotSDfit` (plotMCres.py lines 49-88), restricted
to its control flow and the sequence of plot calls it emits.  Lines 52-55
prepare data and plot nothing; the branch at line 57 assigns the local `wlab`
(and the weighted residuals) only when `weight is not None`; line 67 runs
`selMU = sample(range(noMU), nobj)`, and `random.sample` raises a ValueError
when the requested sample size exceeds the population size; only then does
line 70 read `wlab` unconditionally to build the first plot title.  The result
pairs the plot calls actually executed with the runtime error, if any, that
halted the function. -/
def plotSDfit (noMU nobj : Nat) (slab : String) (weight : Option ℚ) :
    List PlotCall × Option PyErr :=
  let wlabV : Option String := if weight.isSome then some (" weighted") else none
  if noMU < nobj then
    ([], some (PyErr.valueError ("Sample larger than population or is negative")))
  else
  match wlabV with
  | none => ([], some (PyErr.nameError ("wlab")))
  | some wlab =>
    let pt := slab ++ wlab ++ (" residuals from ODR fit")
    let ttl := slab ++ wlab ++ (" ODR evaluated true error of ")
    ([ ⟨"Radiance", "Fit residuals", pt⟩,
       ⟨"ICT radiance", "Fit residuals", pt⟩,
       ⟨"Orbit temperature (K)", "Fit residuals", pt⟩,
       ⟨"Time", "Counts", ttl ++ ("space counts")⟩,
       ⟨"Time", "Counts", ttl ++ ("ICT counts")⟩,
       ⟨"Time", "Counts", ttl ++ ("Earth counts")⟩,
       ⟨"Time", "Radiance", ttl ++ ("ICT radiance")⟩,
       ⟨"Time", "Temperature", ttl ++ ("orbit temperature")⟩ ], none)

/-- True when a scanline-uncertainty row contains a NaN entry
(`where(isnan(row))[0].size != 0`); a float NaN is modelled as `none`. -/
def rowHasNaN (row : List (Option ℚ)) : Bool := row.any fun x => x.isNone

/-- Loop body of `return_valid_averages_mask`: mark entry `i` of the mask
invalid when the predicate holds of the zipped rows at `i`. -/
def markStep (f : α → Bool) (acc : List Bool) (x : Nat × α) : List Bool :=
  if f x.2 then acc.set x.1 false else acc

/-- True when any of the four zipped scanline-uncertainty rows of one matchup
contains a NaN (the condition of AVHRR_to_updated_spec.py lines 150-151). -/
def badRow4 (x : ((List (Option ℚ) × List (Option ℚ)) × List (Option ℚ)) × List (Option ℚ)) :
    Bool :=
  rowHasNaN x.1.1.1 || rowHasNaN x.1.1.2 || rowHasNaN x.1.2 || rowHasNaN x.2

/-- Embedding of `AVHRR_to_updated_spec.return_valid_averages_mask` (lines
120-154).  `valid_averages` starts as all-True of length `u11.shape[0]`; only
when the label is NaN (`none`) does the loop over
`enumerate(zip(u11, u12, u21, u22))` — which, like Python's `zip`, stops at the
shortest array — set entries with a NaN row to False. -/
def return_valid_averages_mask (u11 u12 u21 u22 : List (List (Option ℚ)))
    (label : Option ℚ) : List Bool :=
  let valid := List.replicate u11.length true
  if label.isNone then
    ((((u11.zip u12).zip u21).zip u22).enum).foldl (markStep badRow4) valid
  else valid

/-- Claim C2: each trial dataset is built from the best-estimate fit, not the
raw input — the trial explanatory matrix is `podr.xplus` (transposed) plus the
error columns 1-5, and the trial response is `podr.y` plus the response error
column 0 plus the K error column 6. -/
theorem C2_trial_dataset_is_best_estimate_plus_error (cfg : MCConfig) (d : Draws)
    (i j : Nat) (hj : j < 5) :
    (mcTrialInput cfg d).X i j = (podr cfg).xplus j i + trialErr cfg d i (j + 1)
    ∧ (mcTrialInput cfg d).Y i
        = (podr cfg).y i + trialErr cfg d i 0 + trialErr cfg d i 6 :=
  ⟨rfl, rfl⟩

/-- Witness for C2 at a concrete configuration, trial draw and entry. -/
theorem C2_trial_dataset_is_best_estimate_plus_error_witness :
    (mcTrialInput cfg0 (mkDraws 0 0)).X 0 0
        = (podr cfg0).xplus 0 0 + trialErr cfg0 (mkDraws 0 0) 0 1
    ∧ (mcTrialInput cfg0 (mkDraws 0 0)).Y 0
        = (podr cfg0).y 0 + trialErr cfg0 (mkDraws 0 0) 0 0
            + trialErr cfg0 (mkDraws 0 0) 0 6 :=
  C2_trial_dataset_is_best_estimate_plus_error cfg0 (mkDraws 0 0) 0 0 (by decide)

/-- Claim C5: every trial fit is started from the best-estimate fit's
coefficient vector `podr.beta` and reuses exactly the coefficient fix-mask,
variable fix-mask and systematic-uncertainty matrix passed to the best-estimate
fit. -/
theorem C5_trial_fit_reuses_best_fit_config (cfg : MCConfig) (d : Draws) :
    (mcTrialInput cfg d).beta0 = (podr cfg).beta
    ∧ (mcTrialInput cfg d).fixb = (bestInput cfg).fixb
    ∧ (mcTrialInput cfg d).fixx = (bestInput cfg).fixx
    ∧ (mcTrialInput cfg d).Hs = (bestInput cfg).Hs
    ∧ (mcTrialInput cfg d).Hr = (bestInput cfg).Hr :=
  ⟨rfl, rfl, rfl, rfl, rfl⟩

/-- Claim C7: before any fit, a declared-zero uncertainty that must be nonzero
is corrected: in the time-independent branch the To random-uncertainty column
passed to the fit is the placeholder 1, and in the time-dependent branch the
systematic-uncertainty matrix passed to the fit is `resetHs` of the raw one,
whose To column is never zero. -/
theorem C7_zero_uncertainty_corrected_before_fit (cfg : MCConfig) (i : Nat) :
    (bestInputNT cfg).Hr i 5 = 1
    ∧ (bestInput cfg).Hs = resetHs cfg.Hs
    ∧ (bestInput cfg).Hs i 5 ≠ 0 := by
  refine ⟨rfl, rfl, ?_⟩
  by_cases h : cfg.Hs i 5 = 0 <;>
    simp [bestInput, HsR, resetHs, h]

/-- Claim C1 counterexample: in the time-dependent configuration `cfg1` the
variable fix-mask passed to the trial fit fixes the last variable To, yet the
generated error in To's column of the trial dataset is 1 (its declared
record-level random uncertainty), not 0, so the To value entering the trial fit
differs from its best estimate: the error generator is never handed the
fix-mask. -/
theorem C1_fixed_variable_gets_nonzero_error_cex :
    (mcTrialInput cfg1 d1).fixx.get? 4 = some 0
    ∧ trialErr cfg1 d1 0 5 = 1
    ∧ (mcTrialInput cfg1 d1).X 0 4 ≠ (podr cfg1).xplus 4 0 := by
  refine ⟨rfl, ?_, ?_⟩ <;>
    norm_num [mcTrialInput, mcXdt, trialErr, genErr, sLict, sTo, HsR, resetHs,
      podr, bestInput, dummySolver, cfg1, d1]

/-- Claim C1 (amended): the error generator ignores the fix-mask — the
injected synthetic error in the fixed To column of a trial is zero precisely
when To's declared record-level random uncertainty and systematic scalar are
both zero, in which case the To column of the trial dataset equals the
best-estimate one; fixing a variable via `fixx` does not by itself suppress
error injection. -/
theorem C1_fixed_variable_error_zero_iff_zero_uncertainty
    (Hr : Nat → Nat → ℚ) (sL sT : ℚ) (uS uI : Int → ℚ) (cI : Nat → Int)
    (d : Draws) (xp : Nat → Nat → ℚ) (i : Nat)
    (h0 : Hr i 5 = 0) (hs : sT = 0) :
    genErr Hr sL sT uS uI cI d i 5 = 0
    ∧ xp 4 i + genErr Hr sL sT uS uI cI d i 5 = xp 4 i := by
  have h : genErr Hr sL sT uS uI cI d i 5 = 0 := by
    simp [genErr, h0, hs]
  exact ⟨h, by rw [h, add_zero]⟩

/-- Witness for the amended C1 with concretely zero To uncertainties. -/
theorem C1_fixed_variable_error_zero_iff_zero_uncertainty_witness :
    genErr (fun _ _ => 0) 1 0 (fun _ => 1) (fun _ => 1) (fun _ => 0) d1 0 5 = 0
    ∧ (fun (_ : Nat) (_ : Nat) => (3 : ℚ)) 4 0
        + genErr (fun _ _ => 0) 1 0 (fun _ => 1) (fun _ => 1) (fun _ => 0) d1 0 5
        = (fun (_ : Nat) (_ : Nat) => (3 : ℚ)) 4 0 :=
  C1_fixed_variable_error_zero_iff_zero_uncertainty (fun _ _ => 0) 1 0
    (fun _ => 1) (fun _ => 1) (fun _ => 0) d1 (fun _ _ => 3) 0 rfl rfl

/-- Claim C3: every trial's fitted coefficient vector and solver status code
are recorded in the trial table, for an arbitrary solver and hence regardless
of the termination status it reports — row `i` of `mcb` is exactly trial `i`'s
coefficients followed by its status code, so no trial is discarded before the
table is persisted. -/
theorem C3_every_trial_recorded (cfg : MCConfig) (draws : Nat → Draws) (i : Nat)
    (h : i < cfg.notr) :
    (mcb cfg draws).get? i
      = some ((mcTrial cfg (draws i)).beta ++ [(mcTrial cfg (draws i)).info]) := by
  simp only [mcb, List.get?_eq_getElem?, List.getElem?_map]
  rw [List.getElem?_range h]
  rfl

/-- Witness for C3 at a concrete configuration and trial index. -/
theorem C3_every_trial_recorded_witness :
    (mcb cfg0 (mkDraws 5)).get? 1
      = some ((mcTrial cfg0 (mkDraws 5 1)).beta ++ [(mcTrial cfg0 (mkDraws 5 1)).info]) :=
  C3_every_trial_recorded cfg0 (mkDraws 5) 1 (by decide)

/-- Claim C4: under the spec contract that the solver returns a coefficient
vector of the length of its initial guess, and with the initial coefficient
vector of length `p`, the persisted table has exactly `notr` rows, and each row
has `p + 1` entries: the first `p` are that trial's fitted coefficients and the
last is the solver status code. -/
theorem C4_persisted_table_shape (cfg : MCConfig) (draws : Nat → Draws)
    (hS : ∀ inp : FitIn, ((cfg.solver inp).beta).length = inp.beta0.length)
    (hb : cfg.beta.length = cfg.p) :
    (mcb cfg draws).length = cfg.notr
    ∧ ∀ i, i < cfg.notr → ∀ row, (mcb cfg draws).get? i = some row →
        row.length = cfg.p + 1
        ∧ row.take cfg.p = (mcTrial cfg (draws i)).beta
        ∧ row.get? cfg.p = some (mcTrial cfg (draws i)).info := by
  have hlen : ∀ d : Draws, ((mcTrial cfg d).beta).length = cfg.p := by
    intro d
    calc ((mcTrial cfg d).beta).length = ((podr cfg).beta).length := hS _
      _ = cfg.beta.length := hS _
      _ = cfg.p := hb
  constructor
  · simp [mcb]
  · intro i hi row hrow
    have hrow' : row = (mcTrial cfg (draws i)).beta ++ [(mcTrial cfg (draws i)).info] := by
      have h2 : (mcb cfg draws).get? i
          = some ((mcTrial cfg (draws i)).beta ++ [(mcTrial cfg (draws i)).info]) := by
        simp only [mcb, List.get?_eq_getElem?, List.getElem?_map]
        rw [List.getElem?_range hi]
        rfl
      rw [h2] at hrow
      exact (Option.some_inj.mp hrow).symm
    subst hrow'
    refine ⟨?_, ?_, ?_⟩
    · simp [hlen]
    · rw [← hlen (draws i)]
      exact List.take_left _ _
    · rw [← hlen (draws i), List.get?_eq_getElem?]
      simp [List.getElem?_concat_length]

/-- Witness for C4: the dummy solver satisfies the length contract and `cfg0`
has an initial coefficient vector of length `p = 4`. -/
theorem C4_persisted_table_shape_witness :
    (mcb cfg0 (mkDraws 3)).length = cfg0.notr
    ∧ ∀ i, i < cfg0.notr → ∀ row, (mcb cfg0 (mkDraws 3)).get? i = some row →
        row.length = cfg0.p + 1
        ∧ row.take cfg0.p = (mcTrial cfg0 (mkDraws 3 i)).beta
        ∧ row.get? cfg0.p = some (mcTrial cfg0 (mkDraws 3 i)).info :=
  C4_persisted_table_shape cfg0 (mkDraws 3) (fun _ => rfl) rfl

/-- Claim C6: for every trial's error matrix, the injected scanline-correlated
error for the scanline-level variables (space counts, column 1, and
internal-target counts, column 2) is identical for any two records of the same
scanline group, and equals that group's single standard-normal draw scaled by
the group's declared scanline uncertainty. -/
theorem C6_scanline_error_identical_within_group (cfg : MCConfig) (d : Draws)
    (r r' : Nat) (h : cfg.corIdx r = cfg.corIdx r') :
    trialErr cfg d r 1 = trialErr cfg d r' 1
    ∧ trialErr cfg d r 2 = trialErr cfg d r' 2
    ∧ trialErr cfg d r 1 = d.zS (cfg.corIdx r) * cfg.uS (cfg.corIdx r)
    ∧ trialErr cfg d r 2 = d.zI (cfg.corIdx r) * cfg.uI (cfg.corIdx r) := by
  refine ⟨?_, ?_, rfl, rfl⟩ <;> simp [trialErr, genErr, h]

/-- Witness for C6: records 0 and 1 of `cfg0` share scanline group 0. -/
theorem C6_scanline_error_identical_within_group_witness :
    trialErr cfg0 d1 0 1 = trialErr cfg0 d1 1 1
    ∧ trialErr cfg0 d1 0 2 = trialErr cfg0 d1 1 2
    ∧ trialErr cfg0 d1 0 1 = d1.zS (cfg0.corIdx 0) * cfg0.uS (cfg0.corIdx 0)
    ∧ trialErr cfg0 d1 0 2 = d1.zI (cfg0.corIdx 0) * cfg0.uI (cfg0.corIdx 0) :=
  C6_scanline_error_identical_within_group cfg0 d1 0 1 rfl

/-- Claim C8: the full Monte Carlo run is a pure function of the configuration
and the random seed — two runs with identical inputs and the same seed produce
identical persisted trial tables. -/
theorem C8_same_seed_same_table (cfg : MCConfig) (s1 s2 : Nat) (h : s1 = s2) :
    runMC cfg s1 = runMC cfg s2 := by rw [h]

/-- Witness for C8 at a concrete configuration and seed. -/
theorem C8_same_seed_same_table_witness : runMC cfg0 7 = runMC cfg0 7 :=
  C8_same_seed_same_table cfg0 7 7 rfl

/-- Claim C9 counterexample: a call of `plotSDfit` with the default
`weight=None` but a sample size exceeding the matchup count (`nobj = 1 >
noMU = 0`) halts with the ValueError raised by `sample(range(noMU), nobj)` at
line 67, which executes before the `wlab` read at line 70 — so this call does
not raise a NameError, refuting the claim for every call. -/
theorem C9_value_error_precedes_wlab_read_cex :
    plotSDfit 0 1 ("n15") none
      = ([], some (PyErr.valueError ("Sample larger than population or is negative")))
    ∧ plotSDfit 0 1 ("n15") none ≠ ([], some (PyErr.nameError ("wlab"))) :=
  ⟨rfl, fun h => PyErr.noConfusion (Option.some_inj.mp (congrArg Prod.snd h))⟩

/-- Claim C9 (amended): every call of `plotSDfit` with the default
`weight=None` whose sample size does not exceed the matchup count (so that
`sample` at line 67 succeeds) halts with a NameError on the unassigned local
`wlab` while building the first plot title, before any plot call is executed;
when the sample size exceeds the matchup count a ValueError from `sample` is
raised instead, likewise before any plot. -/
theorem C9_default_weight_name_error_when_sample_fits (noMU nobj : Nat)
    (slab : String) (h : nobj ≤ noMU) :
    plotSDfit noMU nobj slab none = ([], some (PyErr.nameError ("wlab"))) := by
  have hn : ¬ (noMU < nobj) := Nat.not_lt.mpr h
  simp [plotSDfit, hn]

/-- Witness for the amended C9 at a concrete call with a valid sample size. -/
theorem C9_default_weight_name_error_when_sample_fits_witness :
    plotSDfit 5 3 ("n15") none = ([], some (PyErr.nameError ("wlab"))) :=
  C9_default_weight_name_error_when_sample_fits 5 3 ("n15") (by decide)

/-- Marking entries of the mask invalid never changes its length. -/
theorem markFold_length (f : α → Bool) (l : List (Nat × α)) (acc : List Bool) :
    (l.foldl (markStep f) acc).length = acc.length := by
  induction l generalizing acc with
  | nil => rfl
  | cons x xs ih =>
    rw [List.foldl_cons, ih]
    unfold markStep
    split <;> simp

/-- Entry `j` of the mask after the marking loop over rows enumerated from
`s`: it is False when some enumerated row lands on `j` and satisfies the
predicate, and is otherwise the initial entry. -/
theorem markFold_getQ (f : α → Bool) (xs : List α) (s : Nat) (acc : List Bool) (j : Nat) :
    ((List.enumFrom s xs).foldl (markStep f) acc)[j]?
      = if s ≤ j ∧ (xs[j - s]?.any f = true) then
          (if j < acc.length then some false else none)
        else acc[j]? := by
  induction xs generalizing s acc with
  | nil => simp
  | cons x xs ih =>
    have hstep : List.enumFrom s (x :: xs) = (s, x) :: List.enumFrom (s + 1) xs := rfl
    rw [hstep, List.foldl_cons, ih]
    have hlen : (markStep f acc (s, x)).length = acc.length := by
      unfold markStep; split <;> simp
    have hset : s ≠ j → (markStep f acc (s, x))[j]? = acc[j]? := by
      intro hne
      unfold markStep
      split
      · exact List.getElem?_set_ne hne
      · rfl
    rcases Nat.lt_trichotomy j s with hj | rfl | hj
    · have h1 : ¬ (s ≤ j) := Nat.not_le.mpr hj
      have h2 : ¬ (s + 1 ≤ j) := by omega
      simp [h1, h2, hset (by omega)]
    · have h2 : ¬ (j + 1 ≤ j) := by omega
      by_cases hfx : f x = true
      · have hacc : markStep f acc (j, x) = acc.set j false := by
          unfold markStep; rw [if_pos hfx]
        by_cases hja : j < acc.length
        · have l1 : (acc.set j false)[j]? = some false :=
            List.getElem?_set_eq_of_lt false hja
          simp [h2, hfx, hacc, l1, hja]
        · have l1 : (acc.set j false)[j]? = none := by
            apply List.getElem?_eq_none
            simpa using Nat.le_of_not_lt hja
          simp [h2, hfx, hacc, l1, hja]
      · have hacc : markStep f acc (j, x) = acc := by
          unfold markStep; rw [if_neg hfx]
        simp [h2, hfx, hacc]
    · have h1 : s ≤ j := Nat.le_of_lt hj
      have h2 : s + 1 ≤ j := hj
      have hidx : (x :: xs)[j - s]? = xs[j - (s + 1)]? := by
        have h3 : j - s = (j - (s + 1)) + 1 := by omega
        rw [h3]
        simp
      by_cases hany : xs[j - (s + 1)]?.any f = true
      · simp [h1, h2, hany, hidx, hlen]
      · simp [hany, hidx, hset (Nat.ne_of_lt hj)]

/-- Claim C10 counterexample: with the default NaN label, the matchup whose
`u11` row is `[NaN]` is left marked valid because the companion arrays have no
corresponding row and `zip` truncates — so a matchup with a NaN
scanline-uncertainty row is not marked invalid. -/
theorem C10_mask_not_invalid_on_nan_row_cex :
    rowHasNaN [(none : Option ℚ)] = true
    ∧ return_valid_averages_mask [[(none : Option ℚ)]] [] [] [] none = [true] :=
  ⟨rfl, rfl⟩

/-- Claim C10 (amended): the mask always has length `u11.shape[0]`; for a
non-NaN label it is all True regardless of the uncertainty arrays; for the
default NaN label, a matchup `i` is marked invalid exactly when all four arrays
have an `i`-th row and one of those rows contains a NaN — in particular, for
aligned arrays of equal row counts, exactly when any of its four
scanline-uncertainty rows contains a NaN. -/
theorem C10_mask_characterisation (u11 u12 u21 u22 : List (List (Option ℚ)))
    (label : Option ℚ) :
    (return_valid_averages_mask u11 u12 u21 u22 label).length = u11.length
    ∧ (label.isSome = true →
        return_valid_averages_mask u11 u12 u21 u22 label
          = List.replicate u11.length true)
    ∧ ∀ (i : Nat) r1 r2 r3 r4, u11[i]? = some r1 → u12[i]? = some r2 →
        u21[i]? = some r3 → u22[i]? = some r4 →
        (return_valid_averages_mask u11 u12 u21 u22 none)[i]?
          = some (!(rowHasNaN r1 || rowHasNaN r2 || rowHasNaN r3 || rowHasNaN r4)) := by
  refine ⟨?_, ?_, ?_⟩
  · unfold return_valid_averages_mask
    split
    · rw [List.enum, markFold_length]
      simp
    · simp
  · intro h
    cases label with
    | none => simp at h
    | some v => rfl
  · intro i r1 r2 r3 r4 h1 h2 h3 h4
    have hi : i < u11.length := by
      by_contra hcon
      rw [List.getElem?_eq_none (Nat.le_of_not_lt hcon)] at h1
      exact Option.noConfusion h1
    have hzip : ((((u11.zip u12).zip u21).zip u22))[i]? = some (((r1, r2), r3), r4) := by
      refine List.getElem?_zip_eq_some.mpr ⟨?_, h4⟩
      refine List.getElem?_zip_eq_some.mpr ⟨?_, h3⟩
      exact List.getElem?_zip_eq_some.mpr ⟨h1, h2⟩
    have hmask : return_valid_averages_mask u11 u12 u21 u22 none
        = (List.enumFrom 0 (((u11.zip u12).zip u21).zip u22)).foldl (markStep badRow4)
            (List.replicate u11.length true) := rfl
    rw [hmask, markFold_getQ]
    have hb2 : badRow4 (((r1, r2), r3), r4)
        = (rowHasNaN r1 || rowHasNaN r2 || rowHasNaN r3 || rowHasNaN r4) := rfl
    cases hbad : badRow4 (((r1, r2), r3), r4) with
    | true => simp [hzip, hbad, hi, ← hb2]
    | false => simp [hzip, hbad, hi, ← hb2, List.getElem?_replicate]

/-- Witness for the amended C10 at concrete aligned arrays: the matchup with a
NaN row is marked invalid. -/
theorem C10_mask_characterisation_witness :
    (return_valid_averages_mask [[(some 1 : Option ℚ)], [none]]
        [[some 2], [some 2]] [[some 3], [some 3]] [[some 4], [some 4]] none)[1]?
      = some (!(rowHasNaN [(none : Option ℚ)] || rowHasNaN [(some 2 : Option ℚ)]
          || rowHasNaN [(some 3 : Option ℚ)] || rowHasNaN [(some 4 : Option ℚ)])) :=
  (C10_mask_characterisation [[(some 1 : Option ℚ)], [none]] [[some 2], [some 2]]
      [[some 3], [some 3]] [[some 4], [some 4]] none).2.2 1
    [none] [some 2] [some 3] [some 4] rfl rfl rfl rfl
